import Mathlib

/-!
Verification of the cpplog format-template and value-rendering pipeline.

Shallow embedding of the core algorithms of the cpplog logging library
(format-string parser, padding engine, float-text truncation, elision
summarizer, flag handling and logger state), together with theorems
settling the behavioural claims about them.

Strings are modelled as `List Char`; the C `char*` access beyond the
string end (which reads the terminating NUL) is modelled by `charAt`,
which returns `'\x00'` past the end.  Machine integers (`uint16_t`,
`size_t`, `uint64_t`) are modelled as `Nat`: all quantities involved
(digit values up to 999, string lengths, flag words below `2^9`) are far
below any overflow boundary, and the only subtractions performed occur
in branches where the minuend dominates, so `Nat` subtraction agrees
with the C values.
-/

namespace Cpplog

/-- Loggable type specifiers of a parsed directive
(src/cpplog/logdefinitions.h, `enum FormatStringSpecifier`): the subset
of the enum that can occur as the `type` field of a directive.  The
delimiter members (`OPEN`, `CLOSE`, `DECIMAL_PLACES`, `PAD_LEFT`,
`PAD_RIGHT`) are plain characters and are used literally below. -/
inductive FormatStringSpecifier where
  | NONE
  | INT
  | FLOAT
  | HEX
  | STRING
  | CHAR
  | BOOL
  | OBJECT
  deriving DecidableEq, Repr

/-- One parsed substitution site of a format string
(src/unnamed/part_004 lines 70-88, `struct FormatStringObject`;
identical layout in src/cpplog/logger.h lines 69-90).  A pad character
of `'\x00'` means "no padding on that side", exactly as in the C code
where the fields are initialised to `'\0'`. -/
structure FormatStringObject where
  type : FormatStringSpecifier := .NONE
  left_pad_chr : Char := '\x00'
  right_pad_chr : Char := '\x00'
  mx_len : Nat := 0
  mx_decimal_places : Nat := 0
  start_idx : Nat := 0
  end_idx : Nat := 0
  deriving DecidableEq, Repr

instance : Inhabited FormatStringObject := ⟨{}⟩

/-- Model of `FormatStringObject::pad` (src/unnamed/part_004 lines
282-287): emit `n` copies of the pad character. -/
def FormatStringObject.emitPad (n : Nat) (pad_chr : Char) : List Char :=
  List.replicate n pad_chr

/-- Model of `Logger::_pad_fmt_arg` (src/unnamed/part_004 lines 607-645;
the identical code is src/cpplog/logger.h lines 529-567 and src/cpplog.h
lines 684-721): handle max length and padding of a to-be-printed format
argument.  Returns the full text emitted to the stream. -/
def _pad_fmt_arg (arg : List Char) (fmt_obj : FormatStringObject) : List Char :=
  let str_len := arg.length
  let mx_len := fmt_obj.mx_len
  if mx_len ≠ 0 then
    if mx_len < str_len then
      arg.take mx_len
    else
      let mx_padding := mx_len - str_len
      let mx_right_padding0 := mx_padding / 2
      let mx_left_padding0 := mx_padding - mx_right_padding0
      let mx_left_padding :=
        if mx_padding > 0 ∧ fmt_obj.right_pad_chr ≠ '\x00' then
          mx_left_padding0 else mx_padding
      let mx_right_padding :=
        if mx_padding > 0 ∧ fmt_obj.left_pad_chr ≠ '\x00' then
          mx_right_padding0 else mx_padding
      (if fmt_obj.left_pad_chr ≠ '\x00' then
        FormatStringObject.emitPad mx_left_padding fmt_obj.left_pad_chr else []) ++
      arg ++
      (if fmt_obj.right_pad_chr ≠ '\x00' then
        FormatStringObject.emitPad mx_right_padding fmt_obj.right_pad_chr else [])
  else
    arg

/-- The `FLOAT` case of `Logger::_log_fmt_arg` (src/unnamed/part_004
lines 667-683; identical in src/cpplog/logger.h lines 585-601 and
src/cpplog.h lines 738-754): given the decimal-text form of the float
argument (the text `operator<<` produced), cut off surplus decimal
digits.  The C code asserts that a decimal point is present; a missing
point is modelled as `none`. -/
def float_trunc (arg : List Char) (mx_decimal_places : Nat) : Option (List Char) :=
  match arg.findIdx? (· = '.') with
  | none => none
  | some dot_idx =>
    let n_decimal_places := arg.length - dot_idx - 1
    if n_decimal_places > mx_decimal_places then
      some (arg.take (dot_idx + 1 + mx_decimal_places))
    else
      some arg

/-- C-string character access `fmt_str[i]`: positions at or past the end
of the string read the terminating `'\0'`. -/
def charAt (s : List Char) (i : Nat) : Char := s.getD i '\x00'

/-- Model of `FormatStringObject::is_number` (src/unnamed/part_004 lines
289-291). -/
def is_number (chr : Char) : Bool := !(chr < '0' || chr > '9')

/-- Numeric value of a decimal digit character. -/
def digitVal (c : Char) : Nat := c.toNat - '0'.toNat

/-- Model of `FormatStringObject::get_number` (src/unnamed/part_004
lines 293-305): greedily read up to `MX_DIGITS = 3` decimal digits
starting at the given index (the loop is unrolled here), returning the
parsed value (`std::stoi` of the digits read, `0` when there is none)
together with the index just past the digits. -/
def get_number (s : List Char) (i : Nat) : Nat × Nat :=
  if is_number (charAt s i) then
    if is_number (charAt s (i + 1)) then
      if is_number (charAt s (i + 2)) then
        (100 * digitVal (charAt s i) + 10 * digitVal (charAt s (i + 1)) +
          digitVal (charAt s (i + 2)), i + 3)
      else
        (10 * digitVal (charAt s i) + digitVal (charAt s (i + 1)), i + 2)
    else
      (digitVal (charAt s i), i + 1)
  else
    (0, i)

/-- The `switch` on the type specifier character
(src/unnamed/part_004 lines 554-580): the branch taken for each
character, `none` for the `default:` branch (which prints an error and
calls `std::exit(1)` in the C code). -/
def specOfChar (c : Char) : Option FormatStringSpecifier :=
  if c = 'd' then some .INT
  else if c = 'f' then some .FLOAT
  else if c = 'x' then some .HEX
  else if c = 's' then some .STRING
  else if c = 'o' then some .OBJECT
  else if c = 'c' then some .CHAR
  else if c = 'b' then some .BOOL
  else none

/-- Tail of directive parsing (src/unnamed/part_004 lines 553-598):
type specifier, optional right-pad marker `'<'` plus pad character, and
the mandatory closing `'\x7d'`.  The two process-terminating error paths
(`std::exit(1)` on an unknown specifier, `assert`/`std::exit(1)` when
the close is missing) are modelled as `none`. -/
def parseTail (s : List Char) (st : Nat) (lp : Char) (mx_len mx_dec : Nat)
    (i : Nat) : Option (FormatStringObject × Nat) :=
  match specOfChar (charAt s i) with
  | none => none
  | some ty =>
    let i3 := i + 1
    if charAt s i3 = '<' then
      let rp := charAt s (i3 + 1)
      let i4 := i3 + 2
      if charAt s i4 = '\x7d' then
        some (⟨ty, lp, rp, mx_len, mx_dec, st, i4 + 1⟩, i4 + 1)
      else none
    else
      if charAt s i3 = '\x7d' then
        some (⟨ty, lp, '\x00', mx_len, mx_dec, st, i3 + 1⟩, i3 + 1)
      else none

/-- Middle of directive parsing (src/unnamed/part_004 lines 544-551):
max length number, then optional `'.'` plus decimal-places number. -/
def parseAfterPad (s : List Char) (st i : Nat) (lp : Char) :
    Option (FormatStringObject × Nat) :=
  let n1 := get_number s i
  if charAt s n1.2 = '.' then
    let n2 := get_number s (n1.2 + 1)
    parseTail s st lp n1.1 n2.1 n2.2
  else
    parseTail s st lp n1.1 0 n1.2

/-- One directive starting at the `'\x7b'` at index `i0`
(src/unnamed/part_004 lines 533-598): consume the opening brace, then
the optional left-pad character signalled by `'>'` two positions after
the brace.  Returns the directive and the index just past its closing
brace (`end_idx`). -/
def parseDirective (s : List Char) (i0 : Nat) : Option (FormatStringObject × Nat) :=
  if charAt s (i0 + 2) = '>' then
    parseAfterPad s i0 (i0 + 3) (charAt s (i0 + 1))
  else
    parseAfterPad s i0 (i0 + 1) '\x00'

/-- Scanning loop of `Logger::_parse_format_string`
(src/unnamed/part_004 lines 526-605; the src/cpplog/logger.h lines
449-526 variant is identical except that it lacks the `HEX` case).
After a directive the C loop leaves `i` on the closing brace and the
next iteration's `else ++i` moves past it; since that character is
`'\x7d'`, never `'\x7b'`, the loop is modelled as resuming at `end_idx`
directly. The C loop `for (i = 0; i < str_len;)` advances `i` by at
least one per iteration, so `str_len` iterations always suffice; the
`fuel` argument makes that bound explicit (`parseLoopF_fuel_irrel`
shows any sufficiently large fuel gives the same result). -/
def parseLoopF (s : List Char) :
    Nat → Nat → List FormatStringObject → Option (List FormatStringObject)
  | fuel + 1, i, acc =>
    if i < s.length then
      if charAt s i = '\x7b' then
        match parseDirective s i with
        | none => none
        | some (obj, j) => parseLoopF s fuel j (acc ++ [obj])
      else
        parseLoopF s fuel (i + 1) acc
    else some acc
  | 0, i, acc => if i < s.length then none else some acc

/-- Model of `Logger::_parse_format_string` on a whole format string. -/
def _parse_format_string (s : List Char) : Option (List FormatStringObject) :=
  parseLoopF s s.length 0 []

/-- Predicate: spans `[start_idx, end_idx)` of the directives are
non-empty, pairwise non-overlapping, monotonically increasing, and
contained in `[lo, hi]`. -/
def spansOrdered (lo hi : Nat) : List FormatStringObject → Prop
  | [] => True
  | o :: rest =>
    lo ≤ o.start_idx ∧ o.start_idx < o.end_idx ∧ o.end_idx ≤ hi ∧
      spansOrdered o.end_idx hi rest

instance spansOrderedDec :
    (lo hi : Nat) → (l : List FormatStringObject) → Decidable (spansOrdered lo hi l)
  | _, _, [] => .isTrue trivial
  | _, hi, o :: rest =>
    haveI := spansOrderedDec o.end_idx hi rest
    inferInstanceAs (Decidable (_ ∧ _ ∧ _ ∧ _))

/-- The slice `[a, b)` of a character list. -/
def extract (s : List Char) (a b : Nat) : List Char := (s.take b).drop a

/-- Concatenation, in order, of the literal spans and the directive
spans starting at position `i`: literal text up to the next directive,
the directive's own span, and so on; after the last directive the rest
of the template. -/
def reconstruct (s : List Char) (i : Nat) : List FormatStringObject → List Char
  | [] => s.drop i
  | o :: rest =>
    extract s i o.start_idx ++ extract s o.start_idx o.end_idx ++
      reconstruct s o.end_idx rest

/-- Model of `Logger::_log_fmt_arg` (src/unnamed/part_004 lines 648-705;
the src/cpplog/logger.h lines 569-620 variant is identical minus the
`HEX` case): append the literal part `[start_idx, end_idx)` of the
format string, then the argument transformed according to the directive.
The argument value is modelled by the text its `operator<<` conversion
produced (for a `HEX` directive, the text produced under `std::hex`).
The `FLOAT` case's failing `assert` (text without a decimal point) is
`none`. -/
def _log_fmt_arg (log_fmt : List Char) (start_idx end_idx : Nat)
    (arg : List Char) (fmt_obj : FormatStringObject) : Option (List Char) :=
  let lit := extract log_fmt start_idx end_idx
  match fmt_obj.type with
  | .INT => some (lit ++ _pad_fmt_arg arg fmt_obj)
  | .FLOAT =>
    (float_trunc arg fmt_obj.mx_decimal_places).map
      (fun a => lit ++ _pad_fmt_arg a fmt_obj)
  | .HEX => some (lit ++ _pad_fmt_arg arg fmt_obj)
  | .STRING => some (lit ++ _pad_fmt_arg arg fmt_obj)
  | .OBJECT => some (lit ++ _pad_fmt_arg arg fmt_obj)
  | .CHAR => some (lit ++ _pad_fmt_arg arg fmt_obj)
  | .BOOL =>
    some (lit ++ _pad_fmt_arg
      (if arg = ['1'] then "true".data else "false".data) fmt_obj)
  | .NONE => some (lit ++ "Unknown type".data)

/-- Model of `Logger::_log_format_string_args` (src/unnamed/part_004
lines 707-736): the variadic recursion consuming one argument per
directive; the zero-argument anchor copies the literal
`[start_idx, end_idx)`.  `fmt_objs[obj_idx]` is in bounds whenever the
argument count matches the directive count; the C code's out-of-bounds
access on an over-long argument list is modelled with `getD`. -/
def _log_format_string_args (fmt_objs : List FormatStringObject)
    (fmt_str : List Char) :
    Nat → Nat → Nat → List (List Char) → Option (List Char)
  | start_idx, end_idx, _, [] => some (extract fmt_str start_idx end_idx)
  | start_idx, end_idx, obj_idx, first :: rest =>
    match _log_fmt_arg fmt_str start_idx end_idx first
        (fmt_objs.getD obj_idx default) with
    | none => none
    | some out =>
      if obj_idx + 1 ≥ fmt_objs.length then
        (_log_format_string_args fmt_objs fmt_str
          (fmt_objs.getD obj_idx default).end_idx fmt_str.length obj_idx
          rest).map (out ++ ·)
      else
        (_log_format_string_args fmt_objs fmt_str
          (fmt_objs.getD obj_idx default).end_idx
          (fmt_objs.getD (obj_idx + 1) default).start_idx (obj_idx + 1)
          rest).map (out ++ ·)

/-- Payload of the template overload of `Logger::error`
(src/cpplog/logger.h lines 353-365; same shape for `warn`/`info` and in
src/unnamed/part_004 lines 386-400): parse the format string, then
interleave literals and rendered arguments into `fmt_stream`, whose
contents `parse_fmt_opts` then writes to the sink.  The value `none`
marks the paths on which the C code terminates the process (parse
failure or the float assert); decoration (color, timestamp bracket,
newline) is wrapped around this payload and never changes whether it is
written.  The C entry point reads `objs.front()`, undefined on an empty
directive list; modelled with `getD`. -/
def error_fmt_payload (fmt_str : List Char) (args : List (List Char)) :
    Option (List Char) :=
  match _parse_format_string fmt_str with
  | none => none
  | some objs =>
    _log_format_string_args objs fmt_str 0 ((objs.getD 0 default).start_idx)
      0 args

/-- Output gating levels (src/cpplog/logdefinitions.h lines 69-73,
`enum LogOutputLevel`). -/
inductive LogOutputLevel where
  | QUIET
  | DEFAULT
  | DEBUG
  deriving DecidableEq, Repr

/-- Sink writes performed by the template overload of `Logger::debug`
(src/unnamed/part_004 lines 504-523): the guard
`_log_output_lvl != DEBUG || _log_output_lvl == QUIET` returns before
any parsing or rendering; otherwise the call parses, renders and writes
the payload.  The result is the list of writes to the sink (`none` when
the C code would terminate the process on a malformed template). -/
def Logger_debug_fmt (output_lvl : LogOutputLevel) (fmt_str : List Char)
    (args : List (List Char)) : Option (List (List Char)) :=
  if output_lvl ≠ LogOutputLevel.DEBUG ∨ output_lvl = LogOutputLevel.QUIET then
    some []
  else
    match error_fmt_payload fmt_str args with
    | none => none
    | some payload => some [payload]

/-!
Format flags (src/cpplog.h lines 49-59, `enum LogFmt`; identical values
in src/cpplog/logdefinitions.h lines 33-43 where bit 6 is named
`NO_SIZE_LIMIT` instead of `VERBOSE`).  `LogFormat` is `uint64_t`,
modelled as `Nat`.
-/

def NEWLINE : Nat := 1
def TIMESTAMP : Nat := 2
def HIGHLIGHT_RED : Nat := 4
def HIGHLIGHT_GREEN : Nat := 8
def HIGHLIGHT_YELLOW : Nat := 16
def HIGHLIGHT_DEF : Nat := 32
def VERBOSE : Nat := 64
def TYPE_SIZE : Nat := 128
def NAME : Nat := 256

/-- Constant `CPPLOG_MX_ELS` (src/cpplog.h line 79): limit on the number
of elements of a logged container. -/
def CPPLOG_MX_ELS : Nat := 10

/-- Rendering `key: value` of one map entry; keys and values are
modelled by the text their `operator<<` produces. -/
def renderPair (p : List Char × List Char) : List Char :=
  p.1 ++ ": ".data ++ p.2

/-- Comma-separated rendering of a run of map entries (the
print-first-then-comma-loop pattern used by both the `operator<<`
overload and the elided branch). -/
def renderPairsSep : List (List Char × List Char) → List Char
  | [] => []
  | p :: ps => ps.foldl (fun acc q => acc ++ ", ".data ++ renderPair q) (renderPair p)

/-- Model of `operator<<` for `std::map` (src/cpplog.h lines 117-137). -/
def mapToString (pairs : List (List Char × List Char)) : List Char :=
  if pairs.isEmpty then "map: \x7b\x7d ".data
  else "map: \x7b".data ++ renderPairsSep pairs ++ "\x7d ".data

/-- Model of `LoggerImpl::log` for `std::map` (src/cpplog.h lines
388-425), payload only (the surrounding `parse_fmt_opts` decoration —
color, timestamp, size annotation — is appended around this text and
does not depend on it).  The map is modelled by its iteration sequence
of (key text, value text) pairs.  In the elided branch the C iterator
passes over indices `0..MX/2-1` (one unconditional first pair plus the
loop while `left_start < MX/2`), then `std::advance`s by
`(size - MX/2) - left_start` to index `size - MX/2`, and prints the
rest: `take (MX/2)`, the marker, `drop (size - MX/2)`. -/
def LoggerImpl_log_map (pairs : List (List Char × List Char)) (fmt : Nat) :
    List Char :=
  if fmt &&& VERBOSE ≠ 0 ∨ pairs.length < CPPLOG_MX_ELS then
    mapToString pairs
  else
    "map: \x7b".data ++
      renderPairsSep (pairs.take (CPPLOG_MX_ELS / 2)) ++
      " ... ".data ++
      renderPairsSep (pairs.drop (pairs.length - CPPLOG_MX_ELS / 2)) ++
      "\x7d ".data

/-- A 9-entry map (iteration sequence). -/
def pairs9 : List (List Char × List Char) :=
  [("k0".data, "v0".data), ("k1".data, "v1".data), ("k2".data, "v2".data),
   ("k3".data, "v3".data), ("k4".data, "v4".data), ("k5".data, "v5".data),
   ("k6".data, "v6".data), ("k7".data, "v7".data), ("k8".data, "v8".data)]

/-- A 12-entry map (iteration sequence). -/
def pairs12 : List (List Char × List Char) :=
  pairs9 ++ [("k9".data, "v9".data), ("ka".data, "va".data), ("kb".data, "vb".data)]

def __ansi_red : List Char := "\x1b[31m".data
def __ansi_green : List Char := "\x1b[32m".data
def __ansi_yellow : List Char := "\x1b[33m".data
def __ansi_default : List Char := "\x1b[39m".data

/-- Color chosen by `LoggerImpl::parse_fmt_opts`
(src/cpplog.h lines 206-215): the `if/else if` chain testing
`HIGHLIGHT_GREEN`, then `HIGHLIGHT_YELLOW`, then `HIGHLIGHT_RED`, then
`HIGHLIGHT_DEF`; `none` when no highlight bit is set (no escape code is
emitted). -/
def parse_fmt_opts_color (fmt : Nat) : Option (List Char) :=
  if fmt &&& HIGHLIGHT_GREEN ≠ 0 then some __ansi_green
  else if fmt &&& HIGHLIGHT_YELLOW ≠ 0 then some __ansi_yellow
  else if fmt &&& HIGHLIGHT_RED ≠ 0 then some __ansi_red
  else if fmt &&& HIGHLIGHT_DEF ≠ 0 then some __ansi_default
  else none

/-- Preset `Logger::_default_err_fmt` (src/cpplog.h lines 497-498). -/
def _default_err_fmt : Nat := HIGHLIGHT_RED ||| TIMESTAMP ||| NEWLINE

/-- Preset `Logger::_default_warn_fmt` (src/cpplog.h lines 499-500). -/
def _default_warn_fmt : Nat := HIGHLIGHT_YELLOW ||| TIMESTAMP ||| NEWLINE

/-- Preset `Logger::_default_info_fmt` (src/cpplog.h lines 501-502). -/
def _default_info_fmt : Nat := HIGHLIGHT_GREEN ||| TIMESTAMP ||| NEWLINE

/-- Effective format of `Logger::info(t, fmt)` (src/cpplog.h lines
939-943): the caller flags OR-combined with the severity preset. -/
def info_effective_fmt (fmt : Nat) : Nat := fmt ||| _default_info_fmt

/-- Effective format of `Logger::error(t, fmt)` (src/cpplog.h lines
867-871). -/
def error_effective_fmt (fmt : Nat) : Nat := fmt ||| _default_err_fmt

/-- Log levels (src/cpplog.h lines 62-65, `enum Level`; the same shape
as `LogVerboseLevel` in src/cpplog/logdefinitions.h lines 63-67, where
the second member is named `VERBOSE`). -/
inductive Level where
  | STANDARD
  | DEBUG
  deriving DecidableEq, Repr

/-- Numeric value of a `Level` member (the enum is also "compliant with
a valid log format"). -/
def Level.val : Level → Nat
  | .STANDARD => NEWLINE ||| TIMESTAMP
  | .DEBUG => NEWLINE ||| TIMESTAMP ||| TYPE_SIZE ||| NAME

/-- The configuration state of a `Logger` touched by `set_log_level`
and `set_log_format` (src/cpplog.h lines 489-492). -/
structure LoggerState where
  name : List Char
  log_lvl : Level
  log_format : Nat
  deriving DecidableEq, Repr

/-- Model of `Logger::set_log_level` (src/cpplog.h lines 834-837;
identical in src/cpplog/logger.h lines 302-306): sets `_log_lvl = lvl`
and then `_log_format = _log_lvl`. -/
def set_log_level (st : LoggerState) (lvl : Level) : LoggerState :=
  { st with log_lvl := lvl, log_format := lvl.val }

/-- Model of `Logger::set_log_format` (src/cpplog.h lines 840-842). -/
def set_log_format (st : LoggerState) (fmt : Nat) : LoggerState :=
  { st with log_format := fmt }

/-- Format used by a flag-omitting `info(t)` call (src/cpplog.h lines
945-948: `info(t)` forwards `_log_format`, and lines 939-943 OR it with
the preset). -/
def info_omitted_flags_fmt (st : LoggerState) : Nat :=
  st.log_format ||| _default_info_fmt

/-!
Helper lemmas about the parser.
-/

theorem charAt_ne_nul_lt {s : List Char} {k : Nat} (h : charAt s k ≠ '\x00') :
    k < s.length := by
  by_contra hk
  apply h
  simp only [charAt, List.getD]
  rw [List.get?_eq_none.mpr (by omega)]
  rfl

theorem get_number_snd_ge (s : List Char) (i : Nat) :
    i ≤ (get_number s i).2 := by
  unfold get_number
  split_ifs <;> simp

theorem parseTail_spec {s : List Char} {st i j : Nat} {lp : Char}
    {obj : FormatStringObject}
    (h : parseTail s st lp mx_len mx_dec i = some (obj, j)) :
    i < j ∧ obj.start_idx = st ∧ obj.end_idx = j ∧ j ≤ s.length := by
  rcases hty : specOfChar (charAt s i) with _ | ty
  · simp [parseTail, hty] at h
  · simp only [parseTail, hty] at h
    split_ifs at h with h1 h2 h3
    · rw [Option.some.injEq, Prod.mk.injEq] at h
      obtain ⟨rfl, rfl⟩ := h
      have := charAt_ne_nul_lt (s := s) (k := i + 1 + 2) (by rw [h2]; decide)
      exact ⟨by omega, rfl, rfl, by omega⟩
    · rw [Option.some.injEq, Prod.mk.injEq] at h
      obtain ⟨rfl, rfl⟩ := h
      have := charAt_ne_nul_lt (s := s) (k := i + 1) (by rw [h3]; decide)
      exact ⟨by omega, rfl, rfl, by omega⟩

theorem parseAfterPad_spec {s : List Char} {st i j : Nat} {lp : Char}
    {obj : FormatStringObject}
    (h : parseAfterPad s st i lp = some (obj, j)) :
    i < j ∧ obj.start_idx = st ∧ obj.end_idx = j ∧ j ≤ s.length := by
  simp only [parseAfterPad] at h
  have g1 := get_number_snd_ge s i
  split_ifs at h with hdot
  · have g2 := get_number_snd_ge s ((get_number s i).2 + 1)
    have := parseTail_spec h
    exact ⟨by omega, this.2.1, this.2.2.1, this.2.2.2⟩
  · have := parseTail_spec h
    exact ⟨by omega, this.2.1, this.2.2.1, this.2.2.2⟩

theorem parseDirective_spec {s : List Char} {i0 j : Nat}
    {obj : FormatStringObject}
    (h : parseDirective s i0 = some (obj, j)) :
    i0 < j ∧ obj.start_idx = i0 ∧ obj.end_idx = j ∧ j ≤ s.length := by
  unfold parseDirective at h
  split_ifs at h <;>
    { have := parseAfterPad_spec h
      exact ⟨by omega, this.2.1, this.2.2.1, this.2.2.2⟩ }

theorem spansOrdered_weaken {hi : Nat} {l : List FormatStringObject} :
    ∀ {lo lo' : Nat}, lo' ≤ lo → spansOrdered lo hi l → spansOrdered lo' hi l := by
  cases l with
  | nil => intro _ _ _ _; trivial
  | cons o rest =>
    intro lo lo' hle h
    obtain ⟨h1, h2, h3, h4⟩ := h
    exact ⟨by omega, h2, h3, h4⟩

theorem extract_append_drop (s : List Char) (a b : Nat) (hab : a ≤ b)
    (hb : b ≤ s.length) : extract s a b ++ s.drop b = s.drop a := by
  conv_rhs => rw [← List.take_append_drop b s]
  rw [List.drop_append_eq_append_drop]
  simp [extract, List.length_take, Nat.min_eq_left hb,
    Nat.sub_eq_zero_of_le hab]

theorem reconstruct_eq_drop (s : List Char) :
    ∀ (objs : List FormatStringObject) (i : Nat),
      spansOrdered i s.length objs → reconstruct s i objs = s.drop i
  | [], _, _ => rfl
  | o :: rest, i, h => by
    obtain ⟨h1, h2, h3, h4⟩ := h
    rw [reconstruct, reconstruct_eq_drop s rest o.end_idx h4,
      List.append_assoc, extract_append_drop s o.start_idx o.end_idx (by omega) h3,
      extract_append_drop s i o.start_idx h1 (by omega)]

theorem parseLoopF_spans (s : List Char) :
    ∀ (fuel i : Nat) (acc objs : List FormatStringObject),
      parseLoopF s fuel i acc = some objs →
      ∃ tail, objs = acc ++ tail ∧ spansOrdered i s.length tail := by
  intro fuel
  induction fuel with
  | zero =>
    intro i acc objs h
    unfold parseLoopF at h
    split_ifs at h
    cases h
    exact ⟨[], by simp, trivial⟩
  | succ fuel ih =>
    intro i acc objs h
    unfold parseLoopF at h
    split_ifs at h with hi hbrace
    · rcases hp : parseDirective s i with _ | ⟨obj, j⟩ <;> rw [hp] at h
      · cases h
      · obtain ⟨tail, rfl, hord⟩ := ih j (acc ++ [obj]) objs h
        obtain ⟨hij, hst, hend, hjle⟩ := parseDirective_spec hp
        refine ⟨obj :: tail, by simp, ?_⟩
        exact ⟨by omega, by omega, by omega, by rw [hend]; exact hord⟩
    · obtain ⟨tail, rfl, hord⟩ := ih (i + 1) acc objs h
      exact ⟨tail, rfl, spansOrdered_weaken (by omega) hord⟩
    · cases h
      exact ⟨[], by simp, trivial⟩

/-- Any fuel of at least `s.length - i` computes the same result as the
unbounded C loop: the fuel bound used by `_parse_format_string` is never
the reason for a failure. -/
theorem parseLoopF_fuel_irrel (s : List Char) :
    ∀ (fuel fuel' i : Nat) (acc : List FormatStringObject),
      s.length ≤ i + fuel → s.length ≤ i + fuel' →
      parseLoopF s fuel i acc = parseLoopF s fuel' i acc := by
  intro fuel
  induction fuel with
  | zero =>
    intro fuel' i acc hf hf'
    have hi : ¬ i < s.length := by omega
    cases fuel' <;> simp [parseLoopF, hi]
  | succ fuel ih =>
    intro fuel' i acc hf hf'
    by_cases hi : i < s.length
    · have : ∃ g, fuel' = g + 1 := ⟨fuel' - 1, by omega⟩
      obtain ⟨g, rfl⟩ := this
      show parseLoopF s (fuel + 1) i acc = parseLoopF s (g + 1) i acc
      unfold parseLoopF
      rw [if_pos hi, if_pos hi]
      split_ifs with hbrace
      · rcases hp : parseDirective s i with _ | ⟨obj, j⟩
        · rfl
        · obtain ⟨hij, _, _, _⟩ := parseDirective_spec hp
          exact ih g j (acc ++ [obj]) (by omega) (by omega)
      · exact ih g (i + 1) acc (by omega) (by omega)
    · cases fuel' <;> simp [parseLoopF, hi]

/-!
Theorems settling the claims.
-/

/-- C1: for every text, max_length and pair of pad characters with
`len(text) < max_length`, the padding split is: both pads set →
`right = slack / 2`, `left = slack - right`; only the left pad set →
left absorbs the entire slack; only the right pad set → right absorbs
the entire slack.  In particular padding `"ab"` to length 7 with left
pad `'_'` and right pad `'#'` yields `"___ab##"` of length 7. -/
theorem pad_split_asymmetric (text : List Char) (obj : FormatStringObject)
    (h : text.length < obj.mx_len) :
    (obj.left_pad_chr ≠ '\x00' → obj.right_pad_chr ≠ '\x00' →
      _pad_fmt_arg text obj =
        List.replicate ((obj.mx_len - text.length) - (obj.mx_len - text.length) / 2)
          obj.left_pad_chr ++ text ++
        List.replicate ((obj.mx_len - text.length) / 2) obj.right_pad_chr) ∧
    (obj.left_pad_chr ≠ '\x00' → obj.right_pad_chr = '\x00' →
      _pad_fmt_arg text obj =
        List.replicate (obj.mx_len - text.length) obj.left_pad_chr ++ text) ∧
    (obj.left_pad_chr = '\x00' → obj.right_pad_chr ≠ '\x00' →
      _pad_fmt_arg text obj =
        text ++ List.replicate (obj.mx_len - text.length) obj.right_pad_chr) ∧
    (_pad_fmt_arg "ab".data
        { type := .STRING, left_pad_chr := '_', right_pad_chr := '#', mx_len := 7 } =
      "___ab##".data ∧ "___ab##".data.length = 7) := by
  have hmx : ¬ obj.mx_len = 0 := by omega
  have hlt : ¬ obj.mx_len < text.length := by omega
  have hpos : obj.mx_len - text.length > 0 := by omega
  refine ⟨?_, ?_, ?_, by decide, by decide⟩ <;> intro h1 h2 <;>
    simp [_pad_fmt_arg, FormatStringObject.emitPad, hmx, hlt, hpos, h1, h2]

/-- Witness for `pad_split_asymmetric` at `text = "ab"`, `mx_len = 7`,
left pad `'_'`, right pad `'#'`. -/
theorem pad_split_asymmetric_witness :
    ("ab".data.length <
      ({ type := .STRING, left_pad_chr := '_', right_pad_chr := '#',
         mx_len := 7 } : FormatStringObject).mx_len) ∧
    _pad_fmt_arg "ab".data
      { type := .STRING, left_pad_chr := '_', right_pad_chr := '#', mx_len := 7 } =
      "___ab##".data :=
  ⟨by decide,
   ((pad_split_asymmetric "ab".data
      { type := .STRING, left_pad_chr := '_', right_pad_chr := '#', mx_len := 7 }
      (by decide)).1 (by decide) (by decide))⟩

/-- C2 (amended): for `n = mx_len > 0`, the padded text has length
exactly `n` when `n < len(text)` (hard truncation to the first `n`
characters); when `n ≥ len(text)` the length is exactly
`max(n, len(text))` provided at least one pad character is set; when
neither pad character is set the text is returned unchanged (length
`len(text)`, not `max(n, len(text))`). -/
theorem pad_length_law (text : List Char) (obj : FormatStringObject)
    (h0 : 0 < obj.mx_len) :
    (obj.mx_len < text.length →
      _pad_fmt_arg text obj = text.take obj.mx_len ∧
      (_pad_fmt_arg text obj).length = obj.mx_len) ∧
    (text.length ≤ obj.mx_len →
      (obj.left_pad_chr ≠ '\x00' ∨ obj.right_pad_chr ≠ '\x00') →
      (_pad_fmt_arg text obj).length = max obj.mx_len text.length) ∧
    (text.length ≤ obj.mx_len → obj.left_pad_chr = '\x00' →
      obj.right_pad_chr = '\x00' → _pad_fmt_arg text obj = text) := by
  have hmx : ¬ obj.mx_len = 0 := by omega
  refine ⟨fun hlt => ?_, fun hge hpad => ?_, fun hge h1 h2 => ?_⟩
  · constructor
    · simp [_pad_fmt_arg, hmx, hlt]
    · simp [_pad_fmt_arg, hmx, hlt]
      omega
  · have hlt : ¬ obj.mx_len < text.length := by omega
    simp only [_pad_fmt_arg, FormatStringObject.emitPad]
    split_ifs <;>
      simp_all [List.length_append, List.length_replicate] <;>
      omega
  · have hlt : ¬ obj.mx_len < text.length := by omega
    simp [_pad_fmt_arg, hmx, hlt, h1, h2]

/-- Witness for `pad_length_law` at `text = "hello"`, `mx_len = 3`. -/
theorem pad_length_law_witness :
    (0 < ({ type := .STRING, mx_len := 3 } : FormatStringObject).mx_len) ∧
    _pad_fmt_arg "hello".data { type := .STRING, mx_len := 3 } = "hel".data :=
  ⟨by decide,
   ((pad_length_law "hello".data { type := .STRING, mx_len := 3 }
      (by decide)).1 (by decide)).1⟩

/-- Counterexample to C2 as stated: with `mx_len = 5 > len("ab") = 2`
and neither pad character set, `_pad_fmt_arg` returns `"ab"` of length
2, not of length `max(5, 2) = 5`. -/
theorem pad_length_law_cex :
    (_pad_fmt_arg "ab".data { type := .STRING, mx_len := 5 }).length = 2 ∧
    (2 : Nat) ≠ max 5 "ab".data.length := by
  constructor
  · decide
  · decide

/-- C3: when the decimal-text form of a float has more digits after the
(first) decimal point than `max_decimal_places`, the renderer truncates
the text to its first `dot_idx + 1 + mx` characters, leaving exactly
`max_decimal_places` digits after the point; in particular `"3.14159"`
with 2 decimal places yields `"3.14"`, not `"3.15"`. -/
theorem float_trunc_law (arg : List Char) (mx dot_idx : Nat)
    (hdot : arg.findIdx? (· = '.') = some dot_idx)
    (hover : arg.length - dot_idx - 1 > mx) :
    float_trunc arg mx = some (arg.take (dot_idx + 1 + mx)) ∧
    (arg.take (dot_idx + 1 + mx)).length = dot_idx + 1 + mx ∧
    ((arg.take (dot_idx + 1 + mx)).drop (dot_idx + 1)).length = mx ∧
    (float_trunc "3.14159".data 2 = some "3.14".data ∧
      "3.14".data ≠ "3.15".data) := by
  have hle : dot_idx + 1 + mx ≤ arg.length := by
    rcases Nat.lt_or_ge dot_idx arg.length with h | h
    · omega
    · omega
  refine ⟨?_, ?_, ?_, by decide, by decide⟩
  · simp [float_trunc, hdot, hover]
  · simp [List.length_take]
    omega
  · simp [List.length_drop, List.length_take]
    omega

/-- Witness for `float_trunc_law` at `arg = "3.14159"`,
`max_decimal_places = 2`, `dot_idx = 1`. -/
theorem float_trunc_law_witness :
    ("3.14159".data.findIdx? (· = '.') = some 1) ∧
    float_trunc "3.14159".data 2 = some ("3.14159".data.take 4) :=
  ⟨by decide, (float_trunc_law "3.14159".data 2 1 (by decide) (by decide)).1⟩

/-- C4: for every template that the parser accepts, the produced
directives have non-overlapping, monotonically increasing spans (in the
order their delimiters appear in the template), and concatenating the
literal spans and directive spans in order reconstructs the template
exactly. -/
theorem parse_format_string_roundtrip (s : List Char)
    (objs : List FormatStringObject)
    (h : _parse_format_string s = some objs) :
    spansOrdered 0 s.length objs ∧ reconstruct s 0 objs = s := by
  obtain ⟨tail, htail, hord⟩ := parseLoopF_spans s s.length 0 [] objs h
  simp only [List.nil_append] at htail
  subst htail
  exact ⟨hord, by rw [reconstruct_eq_drop s objs 0 hord]; simp⟩

/-- Witness for `parse_format_string_roundtrip` at the template
`"a{d}b{_>5.2f}c"`. -/
theorem parse_format_string_roundtrip_witness :
    (_parse_format_string "a\x7bd\x7db\x7b_>5.2f\x7dc".data =
      some [⟨.INT, '\x00', '\x00', 0, 0, 1, 4⟩,
            ⟨.FLOAT, '_', '\x00', 5, 2, 5, 13⟩]) ∧
    (spansOrdered 0 "a\x7bd\x7db\x7b_>5.2f\x7dc".data.length
        [⟨.INT, '\x00', '\x00', 0, 0, 1, 4⟩,
         ⟨.FLOAT, '_', '\x00', 5, 2, 5, 13⟩] ∧
      reconstruct "a\x7bd\x7db\x7b_>5.2f\x7dc".data 0
        [⟨.INT, '\x00', '\x00', 0, 0, 1, 4⟩,
         ⟨.FLOAT, '_', '\x00', 5, 2, 5, 13⟩] =
        "a\x7bd\x7db\x7b_>5.2f\x7dc".data) :=
  ⟨by decide,
   parse_format_string_roundtrip "a\x7bd\x7db\x7b_>5.2f\x7dc".data
     [⟨.INT, '\x00', '\x00', 0, 0, 1, 4⟩,
      ⟨.FLOAT, '_', '\x00', 5, 2, 5, 13⟩] (by decide)⟩

/-- C5: at `OutputLevel = DEFAULT` a `debug(...)` template call performs
zero writes and succeeds for *every* template and argument list — in
particular for the malformed template `"{q}"` on which the enabled path
would reach the parser's process-terminating branch (third conjunct):
the call returns before the parser runs. -/
theorem debug_default_no_write (fmt_str : List Char) (args : List (List Char)) :
    Logger_debug_fmt LogOutputLevel.DEFAULT fmt_str args = some [] ∧
    Logger_debug_fmt LogOutputLevel.DEFAULT "\x7bq\x7d".data args = some [] ∧
    _parse_format_string "\x7bq\x7d".data = none := by
  refine ⟨rfl, rfl, by decide⟩

/-- C6: evaluation of the parser at malformed templates.  `"{z}"` has an
unknown type character, `"{d"` is unterminated, `"{_>}"` has a pad
marker with no type following.  On each the C code prints an error
message to `std::cerr` and calls `std::exit(1)` (or fails an `assert`),
terminating the process instead of returning a structured error; those
process-terminating paths are the `none` results below. -/
theorem parse_malformed_terminates :
    _parse_format_string "\x7bz\x7d".data = none ∧
    _parse_format_string "\x7bd".data = none ∧
    _parse_format_string "\x7b_>\x7d".data = none := by
  refine ⟨by decide, by decide, by decide⟩

/-- C7: evaluation of the template call at argument-count mismatches.
With template `"a{d}b{d}c"` (2 directives) and 1 argument the call
writes the partial line `"a5b"` — the second directive and the trailing
literal are silently dropped, no error is raised.  With template
`"a{d}b"` (1 directive) and 2 arguments the call writes `"a1b2b"` —
the surplus argument is rendered against the last directive again and
the trailing literal is duplicated.  In both cases something is written
and no failure occurs. -/
theorem error_fmt_mismatch_writes :
    error_fmt_payload "a\x7bd\x7db\x7bd\x7dc".data ["5".data] =
      some "a5b".data ∧
    error_fmt_payload "a\x7bd\x7db".data ["1".data, "2".data] =
      some "a1b2b".data ∧
    ("a5b".data ≠ ([] : List Char) ∧ "a1b2b".data ≠ ([] : List Char)) := by
  refine ⟨by decide, by decide, by decide, by decide⟩

set_option maxRecDepth 40000 in
/-- Counterexample to C8 as stated: a 9-pair map exceeds the claimed
threshold of 8, so the claim requires an elided display of exactly 8
pairs with an ellipsis marker; the code prints the full map (all 9
pairs, no `" ... "` marker), because its threshold is
`CPPLOG_MX_ELS = 10`. -/
theorem map_elision_cex :
    pairs9.length = 9 ∧
    LoggerImpl_log_map pairs9 0 = mapToString pairs9 ∧
    ¬ (" ... ".data <:+: LoggerImpl_log_map pairs9 0) := by
  refine ⟨by decide, by decide, by decide⟩

/-- C8 (amended): the pair threshold is `CPPLOG_MX_ELS = 10`, not 8,
and elision triggers when the size reaches the threshold
(`¬(size < 10)`).  In that case the output shows one unconditional
first pair, then `threshold/2 - 1 = 4` further pairs, the ellipsis
marker, then the remaining pairs so that exactly `threshold = 10` pairs
are shown in total, wrapped in braces. -/
theorem map_elision_threshold (pairs : List (List Char × List Char))
    (fmt : Nat) (hn : CPPLOG_MX_ELS ≤ pairs.length)
    (hv : fmt &&& VERBOSE = 0) :
    LoggerImpl_log_map pairs fmt =
      "map: \x7b".data ++ renderPairsSep (pairs.take 5) ++ " ... ".data ++
        renderPairsSep (pairs.drop (pairs.length - 5)) ++ "\x7d ".data ∧
    (pairs.take 5).length = 1 + (CPPLOG_MX_ELS / 2 - 1) ∧
    (pairs.take 5).length + (pairs.drop (pairs.length - 5)).length =
      CPPLOG_MX_ELS := by
  have hn10 : 10 ≤ pairs.length := hn
  have hlt : ¬ pairs.length < CPPLOG_MX_ELS := by
    simp only [CPPLOG_MX_ELS]
    omega
  have hc : ¬ (fmt &&& VERBOSE ≠ 0 ∨ pairs.length < CPPLOG_MX_ELS) := by
    simp [hv, hlt]
  refine ⟨by simp [LoggerImpl_log_map, hc]; rfl, ?_, ?_⟩
  · simp [List.length_take, CPPLOG_MX_ELS]
    omega
  · simp [List.length_take, List.length_drop, CPPLOG_MX_ELS]
    omega

/-- Witness for `map_elision_threshold` at a 12-pair map with `fmt = 0`. -/
theorem map_elision_threshold_witness :
    (CPPLOG_MX_ELS ≤ pairs12.length ∧ (0 : Nat) &&& VERBOSE = 0) ∧
    LoggerImpl_log_map pairs12 0 =
      "map: \x7b".data ++ renderPairsSep (pairs12.take 5) ++ " ... ".data ++
        renderPairsSep (pairs12.drop (pairs12.length - 5)) ++ "\x7d ".data :=
  ⟨⟨by decide, by decide⟩,
   (map_elision_threshold pairs12 0 (by decide) (by decide)).1⟩

/-- Counterexample to C9 as stated: calling `info` with an explicit
`HIGHLIGHT_RED` flag does *not* render in red — the OR-combined format
contains both the preset's green bit and the caller's red bit, and the
fixed precedence Green > Yellow > Red picks green. -/
theorem info_red_renders_green_cex :
    parse_fmt_opts_color (info_effective_fmt HIGHLIGHT_RED) =
      some __ansi_green ∧
    __ansi_green ≠ __ansi_red := by
  refine ⟨by decide, by decide⟩

/-- C9 (amended): the severity preset is OR-combined with the caller's
flags, and conflicting highlight bits are resolved purely by the fixed
precedence Green > Yellow > Red > Default (first match wins) regardless
of which side supplied them: every `info` call renders green whatever
highlight the caller adds, while `error` (red preset) called with an
explicit `HIGHLIGHT_GREEN` renders green (the caller's bit prevails
only because green outranks red), and a plain `error` call renders
red. -/
theorem severity_flags_or_precedence (fmt : Nat) :
    info_effective_fmt fmt = fmt ||| _default_info_fmt ∧
    parse_fmt_opts_color (info_effective_fmt fmt) = some __ansi_green ∧
    parse_fmt_opts_color (error_effective_fmt HIGHLIGHT_GREEN) =
      some __ansi_green ∧
    parse_fmt_opts_color (error_effective_fmt 0) = some __ansi_red := by
  have hg : (fmt ||| _default_info_fmt) &&& HIGHLIGHT_GREEN ≠ 0 := by
    have h : ((fmt ||| _default_info_fmt) &&& HIGHLIGHT_GREEN).testBit 3 = true := by
      simp [Nat.testBit_and, Nat.testBit_or]
      refine ⟨Or.inr (by decide), by decide⟩
    intro hc
    rw [hc] at h
    simp at h
  refine ⟨rfl, ?_, by decide, by decide⟩
  simp [parse_fmt_opts_color, info_effective_fmt, hg]

/-- C10: `set_log_level(lvl)` overwrites the persistent format flags
with `lvl`'s preset value: flags previously installed via
`set_log_format` are discarded (the resulting state is identical to one
that never saw the `set_log_format`), the persistent format equals
`lvl`'s value, and a subsequent flag-omitting `info` call uses `lvl`'s
preset (OR the severity default) as its format. -/
theorem set_log_level_overwrites_format (st : LoggerState) (f : Nat)
    (lvl : Level) :
    set_log_level (set_log_format st f) lvl = set_log_level st lvl ∧
    (set_log_level st lvl).log_format = lvl.val ∧
    info_omitted_flags_fmt (set_log_level (set_log_format st f) lvl) =
      lvl.val ||| _default_info_fmt :=
  ⟨rfl, rfl, rfl⟩

end Cpplog
